import Mathlib

/-!
Shallow embedding of `src/robot_4dof.ino` (FrankBlabu/Robot4DOF), the control
loop of a 4-DOF servo robot arm: per-axis joystick-to-angle mapping with
calibration, dead zone, range clamping, axis linkage, and edge-triggered
buttons.  C `int` arithmetic is modelled by unbounded `Int` (all quantities
involved stay far below the 16-bit limits for the in-range analog inputs the
hardware delivers); the debug build (`DEBUG_POSITION`) is disabled in the
source (`#undef`), so its extra `analogRead`/`Serial` calls do not exist.
Hardware reads are passed in as explicit arguments; hardware writes
(`Servo::write`) are returned as explicit `(port, angle)` records.
-/

namespace Robot4DOF

/-! ### Configuration constants (namespace `Configuration`) -/

/-- Maximum servo step width in degree if the joystick is pulled to max. -/
def step_width : Int := 5

/-- Servo delay in milliseconds between move actions. -/
def servo_delay : Int := 30

/-- Assumed noise of joystick position in input steps (0, 1024). -/
def joystick_noise : Int := 10

/-! ### Port definitions (namespace `Port`); analog pins A0..A3 are 14..17 -/

namespace Port

def servo_base : Nat := 3
def servo_arm1 : Nat := 5
def servo_arm2 : Nat := 6
def servo_hand : Nat := 9
def joystick_1_h : Nat := 15
def joystick_1_v : Nat := 14
def joystick_2_h : Nat := 17
def joystick_2_v : Nat := 16
def button_1 : Nat := 10
def button_2 : Nat := 11
def led : Nat := 13

end Port

/-! ### Arduino primitives used by the sketch -/

/-- Arduino `constrain(amt, low, high)` macro:
`((amt)<(low)?(low):((amt)>(high)?(high):(amt)))`. -/
def constrain (amt low high : Int) : Int :=
  if amt < low then low else if amt > high then high else amt

/-- Arduino `map(x, in_min, in_max, out_min, out_max)`:
`(x - in_min) * (out_max - out_min) / (in_max - in_min) + out_min` computed in
C `long` arithmetic, whose division truncates toward zero (`Int.tdiv`). -/
def map (x in_min in_max out_min out_max : Int) : Int :=
  Int.tdiv ((x - in_min) * (out_max - out_min)) (in_max - in_min) + out_min

/-- A servo command issued by `Servo::write`: the servo port and the angle. -/
abbrev ServoWrite := Nat × Int

/-! ### CLASS Axis -/

/-- `Axis::Direction`. -/
inductive Direction where
  | POS
  | NEG
deriving DecidableEq, Repr

/-- The state of one `Axis` object (the `Servo` handle is identified with its
port; the `_link` pointer is represented externally, see `processWithLink`). -/
structure Axis where
  joystick_port : Nat
  servo_port : Nat
  initial_pos : Int
  middle_pos : Int
  current_pos : Int
  min_pos : Int
  max_pos : Int
  direction : Direction
deriving DecidableEq, Repr

namespace Axis

/-- The `Axis` constructor: `_middle_pos` starts at `1024 / 2` and
`_current_pos` at `initial_pos`. -/
def mk' (joystick_port servo_port : Nat) (initial_pos min_pos max_pos : Int)
    (direction : Direction) : Axis :=
  { joystick_port := joystick_port
    servo_port := servo_port
    initial_pos := initial_pos
    middle_pos := 1024 / 2
    current_pos := initial_pos
    min_pos := min_pos
    max_pos := max_pos
    direction := direction }

/-- The pre-clamp position computed by `Axis::move`: add `step` for
`Direction::POS`, subtract it for `Direction::NEG`. -/
def move_raw (a : Axis) (step : Int) : Int :=
  match a.direction with
  | .POS => a.current_pos + step
  | .NEG => a.current_pos - step

/-- `Axis::move (int step)`: apply the direction-signed step, clamp into
`[_min_pos, _max_pos]`, and command the servo with the new position.
Returns the updated axis and the servo write issued. -/
def move (a : Axis) (step : Int) : Axis × ServoWrite :=
  let p := constrain (a.move_raw step) a.min_pos a.max_pos
  ({ a with current_pos := p }, (a.servo_port, p))

/-- `Axis::calibrate ()`: store the raw analog reading of the joystick port as
`_middle_pos`. -/
def calibrate (a : Axis) (raw : Int) : Axis :=
  { a with middle_pos := raw }

/-- `Axis::reset ()`: set `_current_pos = _initial_pos` (no clamping) and
command the servo with it. -/
def reset (a : Axis) : Axis × ServoWrite :=
  ({ a with current_pos := a.initial_pos }, (a.servo_port, a.initial_pos))

/-- The step `Axis::process` computes from the raw analog reading: map the
deviation `_middle_pos - raw` from `[-512 + joystick_noise, 512 - joystick_noise]`
to `[-step_width, +step_width]`, then force it to zero inside the dead zone
`|deviation| < joystick_noise`. -/
def computeStep (a : Axis) (raw : Int) : Int :=
  let value := a.middle_pos - raw
  let step := map value (-512 + joystick_noise) (512 - joystick_noise)
    (-step_width) step_width
  if |value| < joystick_noise then 0 else step

/-- `Axis::process ()` for an axis with `_link == nullptr`: compute the step,
`move` this axis, and report whether the step was non-zero.  Also returns the
servo writes issued during the call. -/
def process (a : Axis) (raw : Int) : Axis × Bool × List ServoWrite :=
  let step := a.computeStep raw
  let m := a.move step
  (m.1, decide (step ≠ 0), [m.2])

/-- `Axis::process ()` for an axis `a` with `_link == &b`: after moving `a`,
`b` receives `move` with the *same* signed step.  Returns both updated axes,
the moved flag, and the servo writes issued (self first, link second). -/
def processWithLink (a b : Axis) (raw : Int) :
    Axis × Axis × Bool × List ServoWrite :=
  let step := a.computeStep raw
  let ma := a.move step
  let mb := b.move step
  (ma.1, mb.1, decide (step ≠ 0), [ma.2, mb.2])

/-- `Axis::process` reading its joystick port from an environment
`read : port → value`, for an axis without a link. -/
def processRead (read : Nat → Int) (a : Axis) : Axis × Bool × List ServoWrite :=
  process a (read a.joystick_port)

/-- `Axis::process` reading its joystick port from an environment, for an axis
`a` whose `_link` is `b`.  Only `a`'s joystick port is sampled. -/
def processWithLinkRead (read : Nat → Int) (a b : Axis) :
    Axis × Axis × Bool × List ServoWrite :=
  processWithLink a b (read a.joystick_port)

end Axis

/-! ### CLASS Button -/

/-- A digital pin level as returned by `digitalRead`. -/
inductive Level where
  | HIGH
  | LOW
deriving DecidableEq, Repr

/-- `digitalRead (_port) == LOW` as a boolean. -/
def levelIsLow : Level → Bool
  | .LOW => true
  | .HIGH => false

/-- The state of one `Button` object: its port and `_state`, the last observed
pressed/released boolean (initialised to `false` by the constructor). -/
structure Button where
  port : Nat
  state : Bool
deriving DecidableEq, Repr

namespace Button

/-- `Button::is_triggered ()`: read the digital level, return
`state && !_state`, and store the new state.  The level read from the pin is
passed in as an argument. -/
def is_triggered (b : Button) (level : Level) : Button × Bool :=
  let state := levelIsLow level
  ({ b with state := state }, state && !b.state)

/-- Poll a button over a sequence of pin levels, collecting the
`is_triggered` results in order. -/
def pollSeq (b : Button) : List Level → List Bool
  | [] => []
  | l :: ls =>
    let r := b.is_triggered l
    r.2 :: pollSeq r.1 ls

end Button

/-! ### Derived forms -/

/-- The step `Axis::process` computes, as a function of the deviation
`_middle_pos - raw` alone. -/
def stepOfValue (v : Int) : Int :=
  if |v| < joystick_noise then 0
  else map v (-512 + joystick_noise) (512 - joystick_noise)
    (-step_width) step_width

/-- The mutating operations a single axis can undergo (a `move` arises either
from the axis's own `process` or through another axis's `_link`). -/
inductive Op where
  | move (step : Int)
  | process (raw : Int)
  | reset
  | calibrate (raw : Int)
deriving DecidableEq, Repr

/-- Apply one mutating operation to an axis. -/
def applyOp (a : Axis) : Op → Axis
  | .move s => (a.move s).1
  | .process r => (a.process r).1
  | .reset => a.reset.1
  | .calibrate r => a.calibrate r

/-- Apply a sequence of mutating operations in order. -/
def applyOps (a : Axis) (ops : List Op) : Axis :=
  ops.foldl applyOp a

/-- The clamp invariant together with the construction contract
`min_pos ≤ initial_pos ≤ max_pos` (which every operation preserves). -/
def Inv (a : Axis) : Prop :=
  a.min_pos ≤ a.initial_pos ∧ a.initial_pos ≤ a.max_pos ∧
    a.min_pos ≤ a.current_pos ∧ a.current_pos ≤ a.max_pos

/-! ### The concrete robot (globals and `setup`/`loop` of the sketch) -/

/-- `Axis base ("Base", Port::joystick_2_h, Port::servo_base, 90, 0, 180, POS)`. -/
def base : Axis := Axis.mk' Port.joystick_2_h Port.servo_base 90 0 180 .POS

/-- `Axis arm1 ("Arm1", Port::joystick_1_v, Port::servo_arm1, 20, 0, 90, POS)`;
`setup ()` links it to `arm2`. -/
def arm1 : Axis := Axis.mk' Port.joystick_1_v Port.servo_arm1 20 0 90 .POS

/-- `Axis arm2 ("Arm2", Port::joystick_1_h, Port::servo_arm2, 90, 30, 180, NEG)`. -/
def arm2 : Axis := Axis.mk' Port.joystick_1_h Port.servo_arm2 90 30 180 .NEG

/-- `Axis hand ("Hand", Port::joystick_2_v, Port::servo_hand, 100, 80, 130, NEG)`. -/
def hand : Axis := Axis.mk' Port.joystick_2_v Port.servo_hand 100 80 130 .NEG

/-- The global mutable state of the sketch: the four axes (in the order of the
`axes[]` array) and the two buttons.  The `arm1 → arm2` link set in `setup ()`
is reflected structurally in `processAxes`/`loopTick`. -/
structure RobotState where
  base : Axis
  arm1 : Axis
  arm2 : Axis
  hand : Axis
  button_calibrate : Button
  button_home : Button
deriving DecidableEq, Repr

/-- The state after `setup ()`: each axis calibrated from its joystick port and
reset to its initial position; both buttons fresh. -/
def setupRobot (read : Nat → Int) : RobotState :=
  { base := ((base.calibrate (read base.joystick_port)).reset).1
    arm1 := ((arm1.calibrate (read arm1.joystick_port)).reset).1
    arm2 := ((arm2.calibrate (read arm2.joystick_port)).reset).1
    hand := ((hand.calibrate (read hand.joystick_port)).reset).1
    button_calibrate := { port := Port.button_1, state := false }
    button_home := { port := Port.button_2, state := false } }

/-- Lines 327-331 of `loop ()`: process every axis of `axes[]` in order
(`base`, `arm1` with link `arm2`, `arm2`, `hand`), OR-ing the moved flags.
Returns the new state, the `moved` flag, and all servo writes in order. -/
def processAxes (read : Nat → Int) (s : RobotState) :
    RobotState × Bool × List ServoWrite :=
  let pb := Axis.processRead read s.base
  let p1 := Axis.processWithLinkRead read s.arm1 s.arm2
  let p2 := Axis.processRead read p1.2.1
  let ph := Axis.processRead read s.hand
  ({ s with base := pb.1, arm1 := p1.1, arm2 := p2.1, hand := ph.1 },
    pb.2.1 || (p1.2.2.1 || (p2.2.1 || ph.2.1)),
    pb.2.2 ++ (p1.2.2.2 ++ (p2.2.2 ++ ph.2.2)))

/-- One iteration of `loop ()`: poll the calibrate button (calibrating all axes
on a trigger), poll the home button (resetting all axes on a trigger), process
all axes, and drive the LED with the `moved` flag.  The digital levels of the
two buttons and the analog readings are inputs; servo writes are returned. -/
def loopTick (s : RobotState) (cal_level home_level : Level)
    (read : Nat → Int) : RobotState × Bool × List ServoWrite :=
  let bc := s.button_calibrate.is_triggered cal_level
  let s1 :=
    if bc.2 then
      { s with
        base := s.base.calibrate (read s.base.joystick_port)
        arm1 := s.arm1.calibrate (read s.arm1.joystick_port)
        arm2 := s.arm2.calibrate (read s.arm2.joystick_port)
        hand := s.hand.calibrate (read s.hand.joystick_port)
        button_calibrate := bc.1 }
    else { s with button_calibrate := bc.1 }
  let bh := s1.button_home.is_triggered home_level
  let s2w : RobotState × List ServoWrite :=
    if bh.2 then
      ({ s1 with
          base := s1.base.reset.1
          arm1 := s1.arm1.reset.1
          arm2 := s1.arm2.reset.1
          hand := s1.hand.reset.1
          button_home := bh.1 },
        [s1.base.reset.2, s1.arm1.reset.2, s1.arm2.reset.2, s1.hand.reset.2])
    else ({ s1 with button_home := bh.1 }, [])
  let pr := processAxes read s2w.1
  (pr.1, pr.2.1, s2w.2 ++ pr.2.2)

/-! ### Helper lemmas -/

/-- `constrain` lands in `[low, high]` whenever `low ≤ high`. -/
theorem constrain_mem {x low high : Int} (h : low ≤ high) :
    low ≤ constrain x low high ∧ constrain x low high ≤ high := by
  unfold constrain
  split_ifs <;> omega

/-- `constrain` is the identity on values already in `[low, high]`. -/
theorem constrain_eq_self {x low high : Int} (h1 : low ≤ x) (h2 : x ≤ high) :
    constrain x low high = x := by
  unfold constrain
  split_ifs <;> omega

/-- `Axis::move` leaves the configuration fields untouched. -/
theorem move_config (a : Axis) (step : Int) :
    (a.move step).1.joystick_port = a.joystick_port ∧
    (a.move step).1.servo_port = a.servo_port ∧
    (a.move step).1.initial_pos = a.initial_pos ∧
    (a.move step).1.middle_pos = a.middle_pos ∧
    (a.move step).1.min_pos = a.min_pos ∧
    (a.move step).1.max_pos = a.max_pos ∧
    (a.move step).1.direction = a.direction :=
  ⟨rfl, rfl, rfl, rfl, rfl, rfl, rfl⟩

/-- Every mutating operation preserves `Inv`. -/
theorem inv_applyOp {a : Axis} (op : Op) (h : Inv a) : Inv (applyOp a op) := by
  obtain ⟨h1, h2, h3, h4⟩ := h
  cases op with
  | move s =>
    have hc := constrain_mem (x := a.move_raw s) (h1.trans h2)
    exact ⟨h1, h2, hc.1, hc.2⟩
  | process r =>
    have hc := constrain_mem (x := a.move_raw (a.computeStep r)) (h1.trans h2)
    exact ⟨h1, h2, hc.1, hc.2⟩
  | reset => exact ⟨h1, h2, h1, h2⟩
  | calibrate r => exact ⟨h1, h2, h3, h4⟩

/-- `Inv` is preserved along any operation sequence. -/
theorem inv_applyOps {a : Axis} (ops : List Op) (h : Inv a) :
    Inv (applyOps a ops) := by
  induction ops generalizing a with
  | nil => exact h
  | cons op ops ih => exact ih (inv_applyOp op h)

/-! ### Claims -/

/-- C1: for every axis constructed with `min_pos ≤ initial_pos ≤ max_pos`
(construction sets `current_pos = initial_pos`), the invariant
`min_pos ≤ current_pos ≤ max_pos` holds after every sequence of mutating
operations — `move` with any integer step, `process` with any raw reading,
`reset`, and `calibrate`. -/
theorem C1_clamp_invariant (a : Axis) (ops : List Op)
    (hmin : a.min_pos ≤ a.initial_pos) (hmax : a.initial_pos ≤ a.max_pos)
    (hcur : a.current_pos = a.initial_pos) :
    (applyOps a ops).min_pos ≤ (applyOps a ops).current_pos ∧
      (applyOps a ops).current_pos ≤ (applyOps a ops).max_pos := by
  have h := inv_applyOps ops ⟨hmin, hmax, by omega, by omega⟩
  exact ⟨h.2.2.1, h.2.2.2⟩

/-- Witness for C1 at the concrete `arm2` axis and a concrete operation
sequence mixing extreme moves, processing, reset and calibration. -/
theorem C1_clamp_invariant_witness :
    arm2.min_pos ≤ arm2.initial_pos ∧ arm2.initial_pos ≤ arm2.max_pos ∧
    arm2.current_pos = arm2.initial_pos ∧
    ((applyOps arm2 [.move 100000, .process 0, .reset, .calibrate 7,
        .process 1023, .move (-100000)]).min_pos ≤
      (applyOps arm2 [.move 100000, .process 0, .reset, .calibrate 7,
        .process 1023, .move (-100000)]).current_pos ∧
      (applyOps arm2 [.move 100000, .process 0, .reset, .calibrate 7,
        .process 1023, .move (-100000)]).current_pos ≤
      (applyOps arm2 [.move 100000, .process 0, .reset, .calibrate 7,
        .process 1023, .move (-100000)]).max_pos) :=
  ⟨by decide, by decide, by decide,
    C1_clamp_invariant arm2 _ (by decide) (by decide) (by decide)⟩

/-- Truncating division by 1004 of anything at most 15250 is at most 15. -/
theorem tdiv_1004_le {n : Int} (hn : n ≤ 15250) : n.tdiv 1004 ≤ 15 := by
  rcases le_or_lt 0 n with h | h
  · rw [Int.tdiv_eq_ediv h (by norm_num)]
    calc n / 1004 ≤ 15250 / 1004 := Int.ediv_le_ediv (by norm_num) hn
    _ = 15 := by norm_num
  · have h2 : n.tdiv 1004 = -((-n).tdiv 1004) := by
      rw [← Int.neg_tdiv, neg_neg]
    have h3 : 0 ≤ (-n).tdiv 1004 := Int.tdiv_nonneg (by omega) (by norm_num)
    omega

/-- Truncating division by 1004 of anything at least -5210 is at least -5. -/
theorem le_tdiv_1004 {n : Int} (hn : -5210 ≤ n) : -5 ≤ n.tdiv 1004 := by
  rcases le_or_lt 0 n with h | h
  · have := Int.tdiv_nonneg h (by norm_num : (0:Int) ≤ 1004)
    omega
  · have h2 : n.tdiv 1004 = -((-n).tdiv 1004) := by
      rw [← Int.neg_tdiv, neg_neg]
    rw [Int.tdiv_eq_ediv (by omega : (0:Int) ≤ -n)
      (by norm_num : (0:Int) ≤ 1004)] at h2
    have h4 : (-n) / 1004 ≤ 5210 / 1004 := Int.ediv_le_ediv (by norm_num) (by omega)
    have h5 : (5210:Int) / 1004 = 5 := by norm_num
    omega

/-- For deviations in the full analog range, the computed step lies within
`[-2*step_width, 2*step_width]`. -/
theorem stepOfValue_bounds {v : Int} (h0 : -1023 ≤ v) (h1 : v ≤ 1023) :
    -(2 * step_width) ≤ stepOfValue v ∧ stepOfValue v ≤ 2 * step_width := by
  unfold stepOfValue map
  split_ifs with h
  · decide
  · have e1 : (v - (-512 + joystick_noise)) * (step_width - -step_width)
        = (v + 502) * 10 := by
      unfold joystick_noise step_width
      ring
    have e2 : (512 - joystick_noise - (-512 + joystick_noise) : Int) = 1004 := by
      unfold joystick_noise
      norm_num
    rw [e1, e2]
    have hle : ((v + 502) * 10).tdiv 1004 ≤ 15 := tdiv_1004_le (by omega)
    have hge : -5 ≤ ((v + 502) * 10).tdiv 1004 := le_tdiv_1004 (by omega)
    unfold step_width
    omega

/-- C2: if `current_pos` is already within bounds and the raw reading lies in
the dead zone `|middle_pos - raw| < joystick_noise`, then `process` returns
`false` and leaves `current_pos` unchanged. -/
theorem C2_dead_zone (a : Axis) (raw : Int)
    (h1 : a.min_pos ≤ a.current_pos) (h2 : a.current_pos ≤ a.max_pos)
    (hdz : |a.middle_pos - raw| < joystick_noise) :
    (a.process raw).2.1 = false ∧ (a.process raw).1.current_pos = a.current_pos := by
  have hstep : a.computeStep raw = 0 := by
    unfold Axis.computeStep
    simp only [if_pos hdz]
  constructor
  · simp [Axis.process, hstep]
  · show constrain (a.move_raw (a.computeStep raw)) a.min_pos a.max_pos = a.current_pos
    rw [hstep]
    have hraw : a.move_raw 0 = a.current_pos := by
      unfold Axis.move_raw
      cases a.direction <;> simp
    rw [hraw, constrain_eq_self h1 h2]

/-- Witness for C2: the `base` axis (middle 512, position 90 within [0,180])
read at exactly 512. -/
theorem C2_dead_zone_witness :
    base.min_pos ≤ base.current_pos ∧ base.current_pos ≤ base.max_pos ∧
    |base.middle_pos - 512| < joystick_noise ∧
    ((base.process 512).2.1 = false ∧
      (base.process 512).1.current_pos = base.current_pos) :=
  ⟨by decide, by decide, by decide,
    C2_dead_zone base 512 (by decide) (by decide) (by decide)⟩

/-- An axis state with the calibration reference at the analog extreme 1023
(reachable by calibrating while the joystick reads 1023). -/
def axisC3 : Axis :=
  { joystick_port := Port.joystick_1_h
    servo_port := Port.servo_arm2
    initial_pos := 90
    middle_pos := 1023
    current_pos := 90
    min_pos := 30
    max_pos := 180
    direction := .NEG }

/-- C3 counterexample: with `middle_pos = 1023 ∈ [0, 1024)` and raw reading
`0 ∈ [0, 1024)`, `process` computes the step `10 = 2 * step_width`, which is
outside `[-step_width, +step_width]` — the truncating linear mapping is
evaluated outside its domain `[-502, 502]` and overshoots. -/
theorem C3_step_bound_counterexample :
    (0 ≤ axisC3.middle_pos ∧ axisC3.middle_pos < 1024 ∧
      (0:Int) ≤ 0 ∧ (0:Int) < 1024) ∧
    axisC3.computeStep 0 = 2 * step_width ∧
    ¬(axisC3.computeStep 0 ≤ step_width) := by decide

/-- C3 (amended): no operation in the control loop can fail, and out-of-range
deviations are clamped by construction of the mapping rather than rejected,
but the resulting step bound over the full reading range is twice as wide as
claimed: for every `middle_pos` in `[0, 1024)` and every raw reading in
`[0, 1024)`, the step computed by `process` lies within
`[-2*step_width, +2*step_width]`. -/
theorem C3_step_bound_amended (a : Axis) (raw : Int)
    (hm0 : 0 ≤ a.middle_pos) (hm1 : a.middle_pos < 1024)
    (hr0 : 0 ≤ raw) (hr1 : raw < 1024) :
    -(2 * step_width) ≤ a.computeStep raw ∧
      a.computeStep raw ≤ 2 * step_width := by
  have he : a.computeStep raw = stepOfValue (a.middle_pos - raw) := rfl
  rw [he]
  exact stepOfValue_bounds (by omega) (by omega)

/-- Witness for the amended C3 at the extreme calibration point. -/
theorem C3_step_bound_amended_witness :
    (0 ≤ axisC3.middle_pos ∧ axisC3.middle_pos < 1024 ∧
      (0:Int) ≤ 0 ∧ (0:Int) < 1024) ∧
    (-(2 * step_width) ≤ axisC3.computeStep 0 ∧
      axisC3.computeStep 0 ≤ 2 * step_width) :=
  ⟨by decide,
    C3_step_bound_amended axisC3 0 (by decide) (by decide) (by decide) (by decide)⟩

/-- C4: for an axis `a` with `_link == &b`, a `process` call computing a
non-zero step reports `moved = true` and mutates `b` exactly by `move` with
that same signed step (so through `b`'s own direction and clamp); and the call
samples no joystick channel other than `a`'s — its entire result is unchanged
under any reassignment of the readings at every other port. -/
theorem C4_linkage (a b : Axis) (read : Nat → Int)
    (hstep : a.computeStep (read a.joystick_port) ≠ 0) :
    (Axis.processWithLinkRead read a b).2.1 =
      (b.move (a.computeStep (read a.joystick_port))).1 ∧
    (Axis.processWithLinkRead read a b).2.2.1 = true ∧
    ∀ read' : Nat → Int, read' a.joystick_port = read a.joystick_port →
      Axis.processWithLinkRead read' a b = Axis.processWithLinkRead read a b := by
  refine ⟨rfl, ?_, ?_⟩
  · simp [Axis.processWithLinkRead, Axis.processWithLink, hstep]
  · intro read' hr
    unfold Axis.processWithLinkRead
    rw [hr]

/-- Witness for C4: `arm1` linked to `arm2` with every port reading 0
(step `+5 ≠ 0`). -/
theorem C4_linkage_witness :
    arm1.computeStep ((fun _ => (0:Int)) arm1.joystick_port) ≠ 0 ∧
    (Axis.processWithLinkRead (fun _ => (0:Int)) arm1 arm2).2.1 =
      (arm2.move (arm1.computeStep ((fun _ => (0:Int)) arm1.joystick_port))).1 ∧
    (Axis.processWithLinkRead (fun _ => (0:Int)) arm1 arm2).2.2.1 = true :=
  ⟨by decide,
    (C4_linkage arm1 arm2 (fun _ => 0) (by decide)).1,
    (C4_linkage arm1 arm2 (fun _ => 0) (by decide)).2.1⟩

/-- C5: from the initial button state (`_state = false`), the level sequence
low, low, high, high, low (low = pressed) yields trigger results
true, false, false, false, true; in general a poll triggers exactly when the
level is pressed and the previously observed level was not — never on
sustained hold or release. -/
theorem C5_button_edge :
    Button.pollSeq { port := Port.button_1, state := false }
      [.LOW, .LOW, .HIGH, .HIGH, .LOW] = [true, false, false, false, true] ∧
    (∀ (b : Button) (l : Level),
      ((b.is_triggered l).2 = true ↔ l = .LOW ∧ b.state = false)) ∧
    (∀ (b : Button) (l1 l2 : Level),
      ((Button.pollSeq b [l1, l2]).getD 1 false = true ↔
        l2 = .LOW ∧ l1 ≠ .LOW)) := by
  refine ⟨by decide, ?_, ?_⟩
  · intro b l
    cases b with
    | mk port state =>
      cases l <;> cases state <;>
        simp [Button.is_triggered, levelIsLow]
  · intro b l1 l2
    cases b with
    | mk port state =>
      cases l1 <;> cases l2 <;> cases state <;>
        simp [Button.pollSeq, Button.is_triggered, levelIsLow]

set_option maxRecDepth 10000 in
/-- C6: the end-to-end scenario on the `base` axis configuration
(initial 90, bounds [0, 180], POS, step_width 5, noise 10, middle 512):
raw 512 gives step 0 and position 90; raw 0 gives deviation 512 and step +5,
position 95; 20 consecutive `process` calls at raw 0 drive the position to
exactly the clamp 180, and a 21st call does not move it further. -/
theorem C6_end_to_end :
    base.initial_pos = 90 ∧ base.min_pos = 0 ∧ base.max_pos = 180 ∧
    base.direction = .POS ∧ base.middle_pos = 512 ∧
    base.computeStep 512 = 0 ∧ (base.process 512).1.current_pos = 90 ∧
    base.middle_pos - 0 = 512 ∧ base.computeStep 0 = 5 ∧
    (base.process 0).1.current_pos = 95 ∧
    (applyOps base (List.replicate 20 (.process 0))).current_pos = 180 ∧
    (applyOps base (List.replicate 21 (.process 0))).current_pos = 180 := by
  decide

/-- C7: with identical raw input, identical `middle_pos` and identical
starting position, an axis configured NEG computes the same step as the
otherwise identical POS axis, and its pre-clamp position delta is the exact
negation of the POS axis's delta. -/
theorem C7_direction_inversion (a : Axis) (raw step : Int) :
    ({ a with direction := .NEG } : Axis).computeStep raw =
      ({ a with direction := .POS } : Axis).computeStep raw ∧
    ({ a with direction := .NEG } : Axis).move_raw step - a.current_pos =
      -(({ a with direction := .POS } : Axis).move_raw step - a.current_pos) := by
  refine ⟨rfl, ?_⟩
  simp [Axis.move_raw]

/-- C8: `calibrate` sets `middle_pos` to the sampled reading and leaves every
other field (in particular `current_pos`) unchanged; `process` never modifies
`middle_pos`; and after `calibrate` the step of a subsequent `process` call is
computed from the new reference `r`. -/
theorem C8_calibrate_frame (a : Axis) (r raw : Int) :
    (a.calibrate r).middle_pos = r ∧
    (a.calibrate r).current_pos = a.current_pos ∧
    (a.calibrate r).joystick_port = a.joystick_port ∧
    (a.calibrate r).servo_port = a.servo_port ∧
    (a.calibrate r).initial_pos = a.initial_pos ∧
    (a.calibrate r).min_pos = a.min_pos ∧
    (a.calibrate r).max_pos = a.max_pos ∧
    (a.calibrate r).direction = a.direction ∧
    (a.process raw).1.middle_pos = a.middle_pos ∧
    (a.calibrate r).computeStep raw = stepOfValue (r - raw) :=
  ⟨rfl, rfl, rfl, rfl, rfl, rfl, rfl, rfl, rfl, rfl⟩

/-- C9: `move` always issues exactly one servo write carrying the new clamped
position — hence `process` writes the servo once even on a dead-zone tick with
step 0, `reset` writes the initial position, and one pass of the processing
loop writes every axis's servo (the linked `arm2` twice). -/
theorem C9_servo_write_every_move (a : Axis) (step raw : Int) :
    (a.move step).2 = (a.servo_port, (a.move step).1.current_pos) ∧
    (a.process raw).2.2 = [(a.servo_port, (a.process raw).1.current_pos)] ∧
    a.reset.2 = (a.servo_port, a.reset.1.current_pos) ∧
    a.reset.2.2 = a.initial_pos ∧
    ∀ (s : RobotState) (read : Nat → Int),
      ((processAxes read s).2.2).map Prod.fst =
        [s.base.servo_port, s.arm1.servo_port, s.arm2.servo_port,
          s.arm2.servo_port, s.hand.servo_port] := by
  refine ⟨rfl, rfl, rfl, rfl, ?_⟩
  intro s read
  rfl

/-- The reading assignment for the C10 scenario: the two joystick channels of
`arm1` and `arm2` pulled all the way to 0, every other channel at neutral. -/
def readC10 : Nat → Int := fun p =>
  if p = Port.joystick_1_v then 0 else if p = Port.joystick_1_h then 0 else 512

/-- C10: `arm2` is both linked from `arm1` and present in the `axes[]` array,
so in one control tick its servo port is written twice by the processing loop
(once via the link, once by its own `process`), and its position can change by
`2 * step_width` in a single tick: from the post-`setup` state (all
calibrations at 512), a tick with both relevant joysticks at 0 takes `arm2`
from 90 to 80. -/
theorem C10_double_move :
    (∀ read read₀ : Nat → Int,
      (((processAxes read (setupRobot read₀)).2.2).filter
        (fun w => decide (w.1 = Port.servo_arm2))).length = 2) ∧
    (setupRobot (fun _ => 512)).arm2.current_pos = 90 ∧
    (loopTick (setupRobot (fun _ => 512)) .HIGH .HIGH readC10).1.arm2.current_pos = 80 ∧
    (setupRobot (fun _ => 512)).arm2.current_pos -
      (loopTick (setupRobot (fun _ => 512)) .HIGH .HIGH readC10).1.arm2.current_pos =
      2 * step_width := by
  refine ⟨?_, by decide, by decide, by decide⟩
  intro read read₀
  rfl

end Robot4DOF
